import Mathlib

/-!
Verification of the notebook application's ingestion / status-tracking /
retry core, shallowly embedded from the TypeScript source
(`types.ts`, the application bundle, and the AI service module).

Conventions of the embedding:
* TypeScript `null`/`undefined` optional fields become `Option`.
* Machine timers, the AI providers and `JSON.parse` are environment
  collaborators and are passed in as explicit oracle values/functions.
* Stateful React updates become pure state transitions on `Source`,
  `Notebook` and lists thereof.
-/

namespace NotebookApp

/-- `SourceStatus` from `types.ts`: `'ready' | 'processing' | 'error'`. -/
inductive SourceStatus
  | ready
  | processing
  | error
deriving DecidableEq, Repr

/-- `SourceContent` from `types.ts`: the tagged union of content payloads. -/
inductive SourceContent
  | text (value : String)
  | image (mimeType : String) (data : String)
  | pdf (data : String) (pages : List String)
  | audio (mimeType : String) (data : String)
  | video (mimeType : String) (data : String)
  | website (url : String)
  | youtube (url : String) (embedUrl : String)
deriving DecidableEq, Repr

/-- `Source` from `types.ts`. `content` and `groundingText` are `null`
while processing; `progress` and `error` are optional fields. -/
structure Source where
  id : String
  name : String
  originalType : String
  status : SourceStatus
  progress : Option Nat
  content : Option SourceContent
  groundingText : Option String
  errorMsg : Option String
deriving DecidableEq, Repr

/-- Chat message role from `types.ts`: `'user' | 'model'`. -/
inductive ChatRole
  | user
  | model
deriving DecidableEq, Repr

/-- `ChatMessage` from `types.ts`. -/
structure ChatMessage where
  id : String
  role : ChatRole
  content : String
deriving DecidableEq, Repr

/-- Studio artifact kinds. The app bundle creates `'video'` items as well as
the five kinds listed in `types.ts`, so the embedding carries all six. -/
inductive StudioType
  | mindmap
  | audio
  | report
  | flashcards
  | quiz
  | video
deriving DecidableEq, Repr

/-- `StudioHistoryItem.status`: `'loading' | 'completed' | 'error'`. -/
inductive StudioStatus
  | loading
  | completed
  | error
deriving DecidableEq, Repr

/-- `StudioHistoryItem` from `types.ts`; the `any`-typed `data` payload is
abstracted as an opaque string payload. -/
structure StudioHistoryItem where
  id : String
  type : StudioType
  status : StudioStatus
  name : String
  timestamp : String
  sourceCount : Nat
  data : Option String
  errorMsg : Option String
deriving DecidableEq, Repr

/-- `Notebook` from `types.ts`. -/
structure Notebook where
  id : String
  name : String
  sources : List Source
  chatHistory : List ChatMessage
  studioHistory : List StudioHistoryItem
deriving DecidableEq, Repr

/-! ## Persistence projection (`getSanitizedNotebooksForStorage`) -/

/-- The content tags whose payloads the storage projection drops
(the `source.content.type === 'image' | 'pdf' | 'audio' | 'video'` test). -/
def isBinaryContent : SourceContent → Bool
  | .image _ _ => true
  | .pdf _ _ => true
  | .audio _ _ => true
  | .video _ _ => true
  | _ => false

/-- Per-source arm of `getSanitizedNotebooksForStorage`: replace binary
`content` with `null`, leave everything else as is. -/
def sanitizeSource (s : Source) : Source :=
  match s.content with
  | some c => if isBinaryContent c then { s with content := none } else s
  | none => s

/-- Per-item arm of `getSanitizedNotebooksForStorage`: clear `data` of
completed audio/video items, leave everything else as is. -/
def sanitizeStudioItem (it : StudioHistoryItem) : StudioHistoryItem :=
  if it.status = .completed ∧ (it.type = .audio ∨ it.type = .video) then
    { it with data := none }
  else it

/-- Per-notebook arm of `getSanitizedNotebooksForStorage`. -/
def sanitizeNotebook (n : Notebook) : Notebook :=
  { n with
    sources := n.sources.map sanitizeSource
    studioHistory := n.studioHistory.map sanitizeStudioItem }

/-- `getSanitizedNotebooksForStorage` from the app bundle: the projection
applied to the notebook list before every `localStorage` write. -/
def getSanitizedNotebooksForStorage (notebooksToSave : List Notebook) : List Notebook :=
  notebooksToSave.map sanitizeNotebook

/-- The save/load cycle: the saved JSON blob is the sanitized state and is
read back verbatim on load, so one round trip is exactly the projection. -/
def persistRoundTrip (notebooks : List Notebook) : List Notebook :=
  getSanitizedNotebooksForStorage notebooks

/-! ## Ingestion pipeline (`handleNewNotebook` / `handleAddSources`) -/

/-- Outcome of one `extractTextAndContentFromFile` call: either a
`(content, groundingText)` pair or a thrown error message. -/
inductive ExtractResult
  | ok (content : SourceContent) (groundingText : String)
  | err (message : String)
deriving DecidableEq, Repr

/-- Placeholder creation in `handleNewNotebook` / `handleAddSources`:
`status: 'processing', progress: 0, content: null, groundingText: null`. -/
def mkPlaceholderSource (id name originalType : String) : Source :=
  { id := id, name := name, originalType := originalType,
    status := .processing, progress := some 0,
    content := none, groundingText := none, errorMsg := none }

/-- The `onProgress` update arm: `s.id === source.id ? { ...s, progress } : s`. -/
def setSourceProgress (s : Source) (p : Nat) : Source :=
  { s with progress := some p }

/-- The terminal update arm of the ingestion loop: success sets
`status: 'ready', content, groundingText, progress: 100`; failure sets
`status: 'error', error: e.message, progress: 100`. -/
def finishSource (s : Source) : ExtractResult → Source
  | .ok c gt =>
      { s with status := .ready, content := some c,
               groundingText := some gt, progress := some 100 }
  | .err m =>
      { s with status := .error, errorMsg := some m, progress := some 100 }

/-- Source states reachable through the ingestion pipeline's transitions
alone: placeholder creation, progress updates while extraction is in
flight, and the terminal ready/error transition. (All `onProgress`
callbacks of a source run before its awaited extraction resolves, so
progress updates only fire on a `processing` source.) -/
inductive ReachablePipelineSource : Source → Prop
  | placeholder (id name originalType : String) :
      ReachablePipelineSource (mkPlaceholderSource id name originalType)
  | progress {s : Source} (p : Nat) :
      ReachablePipelineSource s → s.status = .processing →
      ReachablePipelineSource (setSourceProgress s p)
  | finish {s : Source} (r : ExtractResult) :
      ReachablePipelineSource s → s.status = .processing →
      ReachablePipelineSource (finishSource s r)

/-- Source states reachable through the pipeline transitions and,
additionally, the persistence save/load cycle (which applies
`sanitizeSource` to every stored source). -/
inductive ReachableSource : Source → Prop
  | pipeline {s : Source} :
      ReachablePipelineSource s → ReachableSource s
  | saveLoad {s : Source} :
      ReachableSource s → ReachableSource (sanitizeSource s)

/-- Events of one ingestion batch: extraction of the `k`-th source begins
(`start k`) or reaches its terminal state (`finish k ok`). -/
inductive BatchEvent
  | start (k : Nat)
  | finish (k : Nat) (ok : Bool)
deriving DecidableEq, Repr

/-- Whether an extraction outcome is the success case. -/
def ExtractResult.isOk : ExtractResult → Bool
  | .ok _ _ => true
  | .err _ => false

/-- Event trace of the sequential `for (const source of newSources)` loop in
`handleNewNotebook` / `handleAddSources`: each iteration awaits
`extractTextAndContentFromFile` to completion (emitting `start` then
`finish`) before the next iteration begins. `k` is the index of the first
source still to process. -/
def batchTraceFrom (k : Nat) : List ExtractResult → List BatchEvent
  | [] => []
  | r :: rs => .start k :: .finish k r.isOk :: batchTraceFrom (k + 1) rs

/-- Event trace of a whole batch, given the per-source extraction outcomes
in submission order. -/
def batchTrace (results : List ExtractResult) : List BatchEvent :=
  batchTraceFrom 0 results

/-- Final state of one batch's sources: each placeholder is driven to its
terminal state by the loop (the `processedSources` list of
`handleNewNotebook`, resp. the terminal `updateActiveNotebook` calls of
`handleAddSources`). -/
def runBatch (placeholders : List Source) (results : List ExtractResult) : List Source :=
  placeholders.zipWith finishSource results

/-! ## AI gateway retry (`callWithRetry`) -/

/-- The error value thrown by a Gemini call, as inspected by
`callWithRetry`: optional numeric `status` and `code`, and a message. -/
structure ApiError where
  status : Option Nat
  code : Option Nat
  message : String
deriving DecidableEq, Repr

/-- List-of-characters substring test, modelling JavaScript
`String.prototype.includes`. -/
def charsContain (pat : List Char) : List Char → Bool
  | [] => pat.isEmpty
  | c :: cs => pat.isPrefixOf (c :: cs) || charsContain pat cs

/-- `msg.includes(pat)` of the source. -/
def strIncludes (s pat : String) : Bool :=
  charsContain pat.data s.data

/-- `s.startsWith(pre)` of the source (character-list model). -/
def strStartsWith (s pre : String) : Bool :=
  pre.data.isPrefixOf s.data

/-- `s.endsWith(suf)` of the source (character-list model). -/
def strEndsWith (s suf : String) : Bool :=
  suf.data.isSuffixOf s.data

/-- Drop the first `n` characters of `s`. -/
def strDrop (s : String) (n : Nat) : String :=
  ⟨s.data.drop n⟩

/-- Drop the last `n` characters of `s`. -/
def strDropRight (s : String) (n : Nat) : String :=
  ⟨s.data.take (s.data.length - n)⟩

/-- The quota test of `callWithRetry`:
`error.status === 429 || error.code === 429 || msg.includes('429') ||
msg.includes('quota') || msg.includes('RESOURCE_EXHAUSTED')`. -/
def isQuotaError (e : ApiError) : Bool :=
  e.status = some 429 || e.code = some 429 ||
    strIncludes e.message "429" || strIncludes e.message "quota" ||
    strIncludes e.message "RESOURCE_EXHAUSTED"

/-- `callWithRetry` unfolded over an oracle `fn` giving the outcome of each
attempt (attempt number → result). Returns the final outcome together
with the list of waits (in ms) performed before each retry, in order.
Structure: try `fn`; on a quota error with retries left, wait `delay`,
then recurse with `retries - 1` and `delay * 2`; otherwise rethrow. -/
def callWithRetryAux {α : Type} (fn : Nat → Except ApiError α)
    (attempt retries delay : Nat) : Except ApiError α × List Nat :=
  match fn attempt with
  | .ok v => (.ok v, [])
  | .error e =>
    if h : 0 < retries ∧ isQuotaError e then
      let rest := callWithRetryAux fn (attempt + 1) (retries - 1) (delay * 2)
      (rest.1, delay :: rest.2)
    else (.error e, [])
termination_by retries
decreasing_by exact Nat.sub_lt h.1 Nat.one_pos

/-- Default retry budget of `callWithRetry` (`retries = 3`). -/
def defaultRetries : Nat := 3

/-- Default base delay of `callWithRetry` (`delay = 2000` ms). -/
def defaultDelay : Nat := 2000

/-- `callWithRetry(fn)` with the default budget and base delay. -/
def callWithRetry {α : Type} (fn : Nat → Except ApiError α) :
    Except ApiError α × List Nat :=
  callWithRetryAux fn 0 defaultRetries defaultDelay

/-! ## Content extraction (`extractTextAndContentFromFile`) -/

/-- Environment of one `extractTextAndContentFromFile` call: the outcomes
of its external collaborators (the multimodal AI transcription, the
pdf.js page rendering, the XLSX structural parse giving per-sheet
`(sheetName, csv)` pairs, and the UTF-8 decoder). -/
structure ExtractEnv where
  multimodal : Except String String
  pdfPages : Except String (List String)
  officeSheets : Except String (List (String × String))
  utf8Decode : String → String

/-- The fixed error message `processMultimodalPrompt` throws when the AI
call fails: parity with `new Error("The AI model failed to process the file.")`. -/
def multimodalFailure : String := "The AI model failed to process the file."

/-- The placeholder `groundingText` substituted when the XLSX structural
parse throws. -/
def xlsxPlaceholder : String :=
  "Could not extract structured text from this document. Please refer to original file."

/-- The sheet concatenation of the office-document branch:
`groundingText += '--- Sheet: ' + sheetName + ' ---\n\n'; ... += csv + '\n\n'`. -/
def sheetsToText (sheets : List (String × String)) : String :=
  sheets.foldl
    (fun acc sh => acc ++ "--- Sheet: " ++ sh.1 ++ " ---\n\n" ++ sh.2 ++ "\n\n") ""

/-- The two office MIME types of the spreadsheet/word-processing branch. -/
def isOfficeMime (mimeType : String) : Bool :=
  mimeType = "application/vnd.openxmlformats-officedocument.spreadsheetml.sheet" ||
    mimeType = "application/vnd.openxmlformats-officedocument.wordprocessingml.document"

/-- `extractTextAndContentFromFile` (app-bundle version): MIME dispatch to
the per-type extraction strategies, returning `(content, groundingText)`
or a thrown error message. -/
def extractTextAndContentFromFile (env : ExtractEnv) (mimeType base64 : String) :
    Except String (SourceContent × String) :=
  if strStartsWith mimeType "image/" then
    match env.multimodal with
    | .ok gt => .ok (.image mimeType base64, gt)
    | .error _ => .error multimodalFailure
  else if mimeType = "application/pdf" then
    match env.pdfPages with
    | .ok pages =>
      match env.multimodal with
      | .ok gt => .ok (.pdf base64 pages, gt)
      | .error _ => .error multimodalFailure
    | .error e => .error e
  else if isOfficeMime mimeType then
    let groundingText :=
      match env.officeSheets with
      | .ok sheets => (sheetsToText sheets).trim
      | .error _ => xlsxPlaceholder
    .ok (.text groundingText, groundingText)
  else if strStartsWith mimeType "text/" then
    let groundingText := env.utf8Decode base64
    .ok (.text groundingText, groundingText)
  else if strStartsWith mimeType "audio/" || strStartsWith mimeType "video/" then
    match env.multimodal with
    | .ok gt =>
      if strStartsWith mimeType "audio/" then .ok (.audio mimeType base64, gt)
      else .ok (.video mimeType base64, gt)
    | .error _ => .error multimodalFailure
  else
    .error ("Unsupported file type: " ++ mimeType)

/-! ## Studio job submission (`handleGenerateQuiz` and siblings) -/

/-- The eligibility filter of every studio handler and of
`generateGroundedResponse`: `s.status === 'ready' && s.groundingText`
(JavaScript truthiness: non-null and non-empty). -/
def eligibleSource (s : Source) : Bool :=
  s.status = .ready &&
    (match s.groundingText with
     | some t => !(t = "")
     | none => false)

/-- The `loading` history item a studio handler creates synchronously. -/
def mkStudioItem (id : String) (jtype : StudioType) (jname timestamp : String)
    (sourceCount : Nat) : StudioHistoryItem :=
  { id := id, type := jtype, status := .loading, name := jname,
    timestamp := timestamp, sourceCount := sourceCount,
    data := none, errorMsg := none }

/-- The synchronous part shared by all six studio handlers
(`handleGenerateMindMap` / `...AudioSummary` / `...Report` /
`...Flashcards` / `...Quiz` / `...Video`): filter the eligible sources;
with zero eligible sources return without touching the notebook; else
prepend a `loading` item (newest first) with `sourceCount` equal to the
number of eligible sources. -/
def submitStudioJob (jtype : StudioType) (jname : String) (id timestamp : String)
    (nb : Notebook) : Notebook :=
  let readySources := nb.sources.filter eligibleSource
  if readySources.length = 0 then nb
  else
    { nb with
      studioHistory :=
        mkStudioItem id jtype jname timestamp readySources.length :: nb.studioHistory }

/-- `handleGenerateQuiz`, up to (and excluding) the awaited generation. -/
def handleGenerateQuiz (id timestamp : String) (nb : Notebook) : Notebook :=
  submitStudioJob .quiz "Kiểm tra kiến thức" id timestamp nb

/-! ## Citation rendering (`ChatBubble`) -/

/-- `ChatBubble`'s ready filter: `sources.filter(s => s.status === 'ready')`. -/
def readySourcesOf (sources : List Source) : List Source :=
  sources.filter (fun s => s.status = .ready)

/-- What one split part of a chat message renders to: a clickable citation
button or literal text. -/
inductive RenderedPart
  | citation (target : Source) (label : Nat)
  | literal (text : String)
deriving DecidableEq, Repr

/-- The index resolution of `ChatBubble.renderContent` for a citation
marker `[k]`: `sourceIndex = parseInt(k) - 1`, resolved against the
ready-filtered list when `0 <= sourceIndex < readySources.length`. -/
def citationTarget (sources : List Source) (k : Nat) : Option Source :=
  let ready := readySourcesOf sources
  let sourceIndex : Int := (k : Int) - 1
  if 0 ≤ sourceIndex ∧ sourceIndex < (ready.length : Int) then
    ready.get? sourceIndex.toNat
  else
    none

/-- Rendering of one citation-shaped part `[k]`: a button for the resolved
ready source, or the literal marker text when out of range. -/
def renderMarker (sources : List Source) (k : Nat) : RenderedPart :=
  match citationTarget sources k with
  | some s => .citation s k
  | none => .literal ("[" ++ toString k ++ "]")

/-! ## DeepSeek fallback for JSON generation (`generateMindMap`) -/

/-- A role-tagged message of the DeepSeek chat-completion request body. -/
structure DSMessage where
  role : String
  content : String
deriving DecidableEq, Repr

/-- `s.replace(/^pre/, '')`: drop an anchored leading occurrence. -/
def stripLeadingFence (pre s : String) : String :=
  if strStartsWith s pre then strDrop s pre.data.length else s

/-- `s.replace(/suf$/, '')`: drop an anchored trailing occurrence. -/
def stripTrailingFence (suf s : String) : String :=
  if strEndsWith s suf then strDropRight s suf.data.length else s

/-- The fence stripping `generateMindMap` applies to the DeepSeek reply:
`dsResult.replace(/^```json/, '').replace(/^```/, '').replace(/```$/, '')`. -/
def stripFencesMindMap (s : String) : String :=
  stripTrailingFence "```" (stripLeadingFence "```" (stripLeadingFence "```json" s))

/-- The default message of the rethrow in `generateMindMap`:
`new Error(error.message || "...")`. -/
def mindMapDefaultError : String := "The AI model failed to generate the mind map JSON."

/-- Environment of one `generateMindMap` call. `primaryText` is the final
outcome of the retried Gemini call; `parseJson` abstracts `JSON.parse`
into results of type `J`; `deepseek` is the fallback provider's
chat-completion endpoint (messages, jsonMode flag). -/
structure MindMapEnv (J : Type) where
  primaryText : Except String String
  parseJson : String → Except String J
  deepseekConfigured : Bool
  deepseek : List DSMessage → Bool → Except String String

/-- The role-tagged messages `generateMindMap` sends to DeepSeek on
fallback. -/
def mindMapFallbackMessages (prompt : String) : List DSMessage :=
  [⟨"system", "You are a JSON generator."⟩,
   ⟨"user", prompt ++ "\nEnsure output is pure JSON."⟩]

/-- `generateMindMap` after the non-empty-source guard: try the primary
provider and parse its trimmed reply; on any failure, if DeepSeek is
configured, issue the fallback request in JSON mode, strip code fences,
and parse; if that also fails, rethrow the original error message.
Returns the outcome together with the fallback request issued (if any). -/
def generateMindMap {J : Type} (env : MindMapEnv J) (prompt : String) :
    Except String J × Option (List DSMessage × Bool) :=
  let attempt : Except String J :=
    match env.primaryText with
    | .ok t => env.parseJson t.trim
    | .error e => .error e
  match attempt with
  | .ok j => (.ok j, none)
  | .error e =>
    let rethrown := if e = "" then mindMapDefaultError else e
    if env.deepseekConfigured then
      let msgs := mindMapFallbackMessages prompt
      match env.deepseek msgs true with
      | .ok ds =>
        match env.parseJson (stripFencesMindMap ds) with
        | .ok j => (.ok j, some (msgs, true))
        | .error _ => (.error rethrown, some (msgs, true))
      | .error _ => (.error rethrown, some (msgs, true))
    else
      (.error rethrown, none)

/-! ## Grounded chat response (`generateGroundedResponse`) -/

/-- Environment of one `generateGroundedResponse` call. -/
structure GroundedEnv where
  primary : Except String String
  deepseekConfigured : Bool
  deepseek : List DSMessage → Except String String

/-- JavaScript `Array.prototype.join(sep)`. -/
def strJoin (sep : String) : List String → String
  | [] => ""
  | a :: as => as.foldl (fun acc x => acc ++ sep ++ x) a

/-- The numbered `--- SOURCE i+1: name ---` blocks of the preamble,
in eligible-source order (`idx` is the index of the first block). -/
def sourceParts (idx : Nat) : List Source → List String
  | [] => []
  | s :: rest =>
    ("--- SOURCE " ++ toString (idx + 1) ++ ": " ++ s.name ++ " ---\n" ++
      s.groundingText.getD "") :: sourceParts (idx + 1) rest

/-- The numbered source preamble built from the eligible sources. -/
def sourcePreamble (sources : List Source) : String :=
  strJoin "\n\n" (sourceParts 0 (sources.filter eligibleSource))

/-- The fixed reply returned when no source is eligible. -/
def noValidSourcesMessage : String :=
  "There are no valid sources to answer the question from. Please add and process some sources first."

/-- `msg.role.toUpperCase()`. -/
def roleUpper : ChatRole → String
  | .user => "USER"
  | .model => "MODEL"

/-- `chatHistory.slice(-5)` joined as `ROLE: content` lines. -/
def recentContext (chatHistory : List ChatMessage) : String :=
  String.intercalate "\n"
    ((chatHistory.drop (chatHistory.length - 5)).map
      (fun m => roleUpper m.role ++ ": " ++ m.content))

/-- The system prompt of `generateGroundedResponse`. -/
def groundedSystemPrompt (sourceTotal : Nat) : String :=
  "You are an expert research assistant. You have access to " ++
    toString sourceTotal ++
    " source file(s).\nYour task is to answer the user's question based ONLY on the provided sources. Do not use any external knowledge.\n\nINSTRUCTIONS:\n1. Read ALL sources carefully.\n2. If the user is asking to adjust or clarify a previous answer, use the Conversation Context.\n3. Cite your sources using brackets like [1]."

/-- The user prompt of `generateGroundedResponse`. -/
def groundedFullPrompt (context preamble question : String) : String :=
  "\nConversation Context:\n" ++ context ++ "\n\nHere are the sources:\n\n" ++
    preamble ++ "\n\n--- END OF SOURCES ---\n\nUser's Question: " ++ question ++ "\n"

/-- `generateGroundedResponse` (app-bundle version). The second component
records whether any AI provider was called. The function is total: every
failure path is converted into a human-readable reply string. -/
def generateGroundedResponse (env : GroundedEnv) (sources : List Source)
    (question : String) (chatHistory : List ChatMessage) : String × Bool :=
  let pre := sourcePreamble sources
  if pre = "" then
    (noValidSourcesMessage, false)
  else
    let systemPrompt := groundedSystemPrompt sources.length
    let fullPrompt := groundedFullPrompt (recentContext chatHistory) pre question
    match env.primary with
    | .ok t => (t, true)
    | .error e =>
      let dsReply : Option String :=
        if env.deepseekConfigured then
          match env.deepseek [⟨"system", systemPrompt⟩, ⟨"user", fullPrompt⟩] with
          | .ok t => some t
          | .error _ => none
        else none
      match dsReply with
      | some t => (t, true)
      | none =>
        if strIncludes e "API key" then
          ("Lỗi: Không tìm thấy API Key. Vui lòng kiểm tra cài đặt Environment Variable trên Vercel.", true)
        else
          ("Xin lỗi, đã có lỗi xảy ra: " ++ (if e = "" then "Lỗi không xác định" else e), true)

/-! ## Invariants and concrete instances -/

/-- The status/content/error invariant asserted by the spec's data model:
`ready` iff both `content` and `groundingText` are non-null, `error` iff
the error field is set, and the three statuses are collectively
exhaustive (mutual exclusion is built into the enum). -/
def sourceStatusInvariant (s : Source) : Prop :=
  (s.status = .ready ↔ (s.content ≠ none ∧ s.groundingText ≠ none)) ∧
  (s.status = .error ↔ s.errorMsg ≠ none) ∧
  (s.status = .ready ∨ s.status = .processing ∨ s.status = .error)

/-- The part of the invariant that survives the persistence projection:
`error` iff the error field is set, `ready` iff `groundingText` is
non-null, and a non-null `content` still implies `ready`. -/
def sourceWeakInvariant (s : Source) : Prop :=
  (s.status = .error ↔ s.errorMsg ≠ none) ∧
  (s.status = .ready ↔ s.groundingText ≠ none) ∧
  (s.content ≠ none → s.status = .ready)

/-- Combined invariant carried through the pipeline induction: the full
status invariant, the projection-stable part, and terminal progress. -/
def pipelineInvariant (s : Source) : Prop :=
  sourceStatusInvariant s ∧ sourceWeakInvariant s ∧
    (s.status ≠ .processing → s.progress = some 100)

/-- A concrete extraction success for an image file. -/
def imageContent : SourceContent := .image "image/png" "AAAA"

/-- A concrete `ready` source produced by the pipeline from an image file. -/
def readyImageSource : Source :=
  finishSource (mkPlaceholderSource "s1" "img.png" "image/png") (.ok imageContent "desc")

/-- The same source after one persistence save/load cycle. -/
def sanitizedImageSource : Source := sanitizeSource readyImageSource

/-- A concrete `error` source produced by the pipeline. -/
def erroredSource : Source :=
  finishSource (mkPlaceholderSource "s2" "x.bin" "application/x-unknown")
    (.err "Unsupported file type: application/x-unknown")

/-- A concrete `ready` text source. -/
def readyTextSource : Source :=
  finishSource (mkPlaceholderSource "s3" "hello.txt" "text/plain")
    (.ok (.text "Xin chào") "Xin chào")

/-- A concrete notebook with two eligible sources and one errored one. -/
def sampleNotebook : Notebook :=
  { id := "n1", name := "NB", chatHistory := [],
    sources := [readyImageSource, erroredSource, readyTextSource],
    studioHistory := [] }

end NotebookApp

/-! # Theorems -/

namespace NotebookApp

theorem mkPlaceholderSource_status (id name ot : String) :
    (mkPlaceholderSource id name ot).status = .processing := rfl

theorem setSourceProgress_fields (s : Source) (p : Nat) :
    (setSourceProgress s p).status = s.status ∧
    (setSourceProgress s p).content = s.content ∧
    (setSourceProgress s p).groundingText = s.groundingText ∧
    (setSourceProgress s p).errorMsg = s.errorMsg :=
  ⟨rfl, rfl, rfl, rfl⟩

theorem reachablePipeline_invariant {s : Source}
    (h : ReachablePipelineSource s) : pipelineInvariant s := by
  induction h with
  | placeholder id name ot =>
    refine ⟨⟨?_, ?_, ?_⟩, ⟨?_, ?_, ?_⟩, ?_⟩ <;> simp [mkPlaceholderSource]
  | progress p h hproc ih =>
    exact ⟨ih.1, ih.2.1, fun hc => absurd hproc hc⟩
  | finish r h hproc ih =>
    rename_i t
    obtain ⟨⟨i1, i2, _⟩, ⟨w1, w2, w3⟩, _⟩ := ih
    have herr : t.errorMsg = none := by
      by_contra he
      have h2 := hproc ▸ i2.mpr he
      simp at h2
    have hgt : t.groundingText = none := by
      by_contra hg
      have h2 := hproc ▸ w2.mpr hg
      simp at h2
    have hcn : t.content = none := by
      by_contra hc
      have h2 := hproc ▸ w3 hc
      simp at h2
    cases r with
    | ok c gt =>
      refine ⟨⟨?_, ?_, ?_⟩, ⟨?_, ?_, ?_⟩, ?_⟩ <;>
        simp [finishSource, herr, hgt, hcn]
    | err m =>
      refine ⟨⟨?_, ?_, ?_⟩, ⟨?_, ?_, ?_⟩, ?_⟩ <;>
        simp [finishSource, herr, hgt, hcn]

/-- The storage projection leaves every field of a source unchanged except
`content`, which it nulls exactly for binary payloads. -/
theorem sanitizeSource_fields (s : Source) :
    (sanitizeSource s).id = s.id ∧
    (sanitizeSource s).name = s.name ∧
    (sanitizeSource s).originalType = s.originalType ∧
    (sanitizeSource s).status = s.status ∧
    (sanitizeSource s).progress = s.progress ∧
    (sanitizeSource s).groundingText = s.groundingText ∧
    (sanitizeSource s).errorMsg = s.errorMsg ∧
    (sanitizeSource s).content =
      (if s.content.elim false isBinaryContent then none else s.content) := by
  unfold sanitizeSource
  cases hc : s.content with
  | none => simp [hc]
  | some c => by_cases hb : isBinaryContent c <;> simp [hb, hc]

/-- Sanitization preserves the projection-stable invariant. -/
theorem sanitizeSource_weakInvariant {s : Source}
    (h : sourceWeakInvariant s) : sourceWeakInvariant (sanitizeSource s) := by
  obtain ⟨w1, w2, w3⟩ := h
  obtain ⟨_, _, _, hst, _, hgt, herr, hcn⟩ := sanitizeSource_fields s
  refine ⟨by rw [hst, herr]; exact w1, by rw [hst, hgt]; exact w2, ?_⟩
  intro hc
  rw [hst]
  apply w3
  rw [hcn] at hc
  by_cases hb : s.content.elim false isBinaryContent
  · rw [if_pos hb] at hc
    exact absurd rfl hc
  · rw [if_neg hb] at hc
    exact hc

theorem reachable_invariant {s : Source} (h : ReachableSource s) :
    sourceWeakInvariant s ∧ (s.status ≠ .processing → s.progress = some 100) := by
  induction h with
  | pipeline hp =>
    have := reachablePipeline_invariant hp
    exact ⟨this.2.1, this.2.2⟩
  | saveLoad h ih =>
    rename_i t
    obtain ⟨_, _, _, hst, hpr, _, _, _⟩ := sanitizeSource_fields t
    refine ⟨sanitizeSource_weakInvariant ih.1, ?_⟩
    intro hc
    rw [hpr]
    exact ih.2 (hst ▸ hc)

/-- C1 (counterexample): the claim as stated is false. A source made
`ready` from an image file and then run through the persistence
projection is reachable (the claim's reachable set includes the
save/load cycle), still has `status = ready`, but its `content` is
`null`, refuting `status = ready ↔ content and groundingText non-null`. -/
theorem c1_status_invariant_counterexample :
    ReachableSource sanitizedImageSource ∧
      ¬ sourceStatusInvariant sanitizedImageSource := by
  constructor
  · exact .saveLoad (.pipeline
      (.finish (.ok imageContent "desc") (.placeholder "s1" "img.png" "image/png") rfl))
  · intro h
    have h1 := h.1.mp (by decide)
    revert h1
    decide

/-- C1 (amended): in every state reachable through the ingestion
pipeline's transitions alone, `status = ready` iff both `content` and
`groundingText` are non-null, `status = error` iff the error field is
set, and the three statuses are mutually exclusive and collectively
exhaustive. Once the persistence save/load cycle is included, the
invariant that survives is: `error` iff the error field is set, `ready`
iff `groundingText` is non-null, and a non-null `content` still implies
`ready` (a ready source's `content` may have been nulled by the
projection). -/
theorem c1_status_invariant_amended :
    (∀ s : Source, ReachablePipelineSource s → sourceStatusInvariant s) ∧
    (∀ s : Source, ReachableSource s → sourceWeakInvariant s) :=
  ⟨fun _ h => (reachablePipeline_invariant h).1,
   fun _ h => (reachable_invariant h).1⟩

/-- Witness for C1 (amended) at concrete pipeline states. -/
theorem c1_status_invariant_amended_witness :
    sourceStatusInvariant readyTextSource ∧
      sourceWeakInvariant sanitizedImageSource :=
  ⟨c1_status_invariant_amended.1 _
      (.finish (.ok (.text "Xin chào") "Xin chào")
        (.placeholder "s3" "hello.txt" "text/plain") rfl),
   c1_status_invariant_amended.2 _
      (.saveLoad (.pipeline
        (.finish (.ok imageContent "desc") (.placeholder "s1" "img.png" "image/png") rfl)))⟩

/-- C10: in every source state reachable through the pipeline (including
after save/load), a terminal status (`ready` or `error`) implies
`progress = 100` — failed sources included — so `progress < 100` implies
`status = processing`. -/
theorem c10_terminal_progress :
    ∀ s : Source, ReachableSource s →
      ((s.status = .ready ∨ s.status = .error) → s.progress = some 100) ∧
      (∀ p : Nat, s.progress = some p → p < 100 → s.status = .processing) := by
  intro s h
  have hterm := (reachable_invariant h).2
  constructor
  · intro hs
    apply hterm
    rcases hs with hs | hs <;> simp [hs]
  · intro p hp hlt
    by_contra hproc
    have := hterm hproc
    rw [hp] at this
    simp at this
    omega

/-- Witness for C10 at a concrete errored source. -/
theorem c10_terminal_progress_witness :
    erroredSource.progress = some 100 :=
  (c10_terminal_progress erroredSource
    (.pipeline (.finish (.err "Unsupported file type: application/x-unknown")
      (.placeholder "s2" "x.bin" "application/x-unknown") rfl))).1
    (Or.inr rfl)

theorem callWithRetryAux_ok {α : Type} (fn : Nat → Except ApiError α)
    (attempt retries delay : Nat) (v : α) (h : fn attempt = .ok v) :
    callWithRetryAux fn attempt retries delay = (.ok v, []) := by
  rw [callWithRetryAux, h]

theorem callWithRetryAux_quotaStep {α : Type} (fn : Nat → Except ApiError α)
    (attempt retries delay : Nat) (e : ApiError) (hr : 0 < retries)
    (h : fn attempt = .error e) (hq : isQuotaError e = true) :
    callWithRetryAux fn attempt retries delay =
      ((callWithRetryAux fn (attempt + 1) (retries - 1) (delay * 2)).1,
        delay :: (callWithRetryAux fn (attempt + 1) (retries - 1) (delay * 2)).2) := by
  rw [callWithRetryAux, h]
  simp [hr, hq]

theorem callWithRetryAux_throw {α : Type} (fn : Nat → Except ApiError α)
    (attempt retries delay : Nat) (e : ApiError)
    (h : fn attempt = .error e) (hq : isQuotaError e = false) :
    callWithRetryAux fn attempt retries delay = (.error e, []) := by
  rw [callWithRetryAux, h]
  simp [hq]

/-- C2: `callWithRetry` retries only quota-style failures (status/code 429
or a message containing `429` / `quota` / `RESOURCE_EXHAUSTED`), within
the default budget of 3 retries, waiting the fixed base delay of 2000 ms
and doubling before each retry; a call that fails twice with quota
errors and then succeeds returns the success result after the strictly
increasing waits 2000 ms then 4000 ms; a non-quota failure propagates
immediately with no wait. -/
theorem c2_retry_backoff :
    (∀ {α : Type} (fn : Nat → Except ApiError α) (e0 e1 : ApiError) (v : α),
      fn 0 = .error e0 → fn 1 = .error e1 → fn 2 = .ok v →
      isQuotaError e0 = true → isQuotaError e1 = true →
      callWithRetry fn = (.ok v, [2000, 4000]) ∧ (2000 : Nat) < 4000) ∧
    (∀ {α : Type} (fn : Nat → Except ApiError α) (e : ApiError),
      fn 0 = .error e → isQuotaError e = false →
      callWithRetry fn = (.error e, [])) := by
  constructor
  · intro α fn e0 e1 v h0 h1 h2 q0 q1
    refine ⟨?_, by norm_num⟩
    have s1 := callWithRetryAux_quotaStep fn 0 3 2000 e0 (by norm_num) h0 q0
    have s2 := callWithRetryAux_quotaStep fn 1 2 4000 e1 (by norm_num) h1 q1
    have s3 := callWithRetryAux_ok fn 2 1 8000 v h2
    norm_num at s1 s2
    rw [callWithRetry, defaultRetries, defaultDelay, s1, s2, s3]
  · intro α fn e h0 hq
    rw [callWithRetry, defaultRetries, defaultDelay,
      callWithRetryAux_throw fn 0 3 2000 e h0 hq]

/-- Witness for C2 at a concrete quota-failing-then-succeeding call and a
concrete non-quota failure. -/
theorem c2_retry_backoff_witness :
    (callWithRetry (fun n => match n with
      | 0 => .error ⟨some 429, none, "quota exceeded"⟩
      | 1 => .error ⟨none, none, "RESOURCE_EXHAUSTED"⟩
      | _ => .ok (42 : Nat)) = (.ok 42, [2000, 4000]) ∧ (2000 : Nat) < 4000) ∧
    callWithRetry (fun _ => (.error ⟨some 500, none, "internal"⟩ : Except ApiError Nat)) =
      (.error ⟨some 500, none, "internal"⟩, []) :=
  ⟨c2_retry_backoff.1 _ ⟨some 429, none, "quota exceeded"⟩
      ⟨none, none, "RESOURCE_EXHAUSTED"⟩ 42 rfl rfl rfl (by decide) (by decide),
   c2_retry_backoff.2 _ ⟨some 500, none, "internal"⟩ rfl (by decide)⟩

/-- C4: every studio handler rejects a request with zero eligible
(`ready` with non-empty `groundingText`) sources before creating any
history item — the notebook, its `studioHistory` included, is returned
unchanged — and otherwise synchronously adds a `loading` item (newest
first) whose `sourceCount` is the number of eligible sources, before any
generation result is applied. -/
theorem c4_studio_gating :
    (∀ (jtype : StudioType) (jname id ts : String) (nb : Notebook),
      (nb.sources.filter eligibleSource).length = 0 →
      submitStudioJob jtype jname id ts nb = nb) ∧
    (∀ (jtype : StudioType) (jname id ts : String) (nb : Notebook),
      0 < (nb.sources.filter eligibleSource).length →
      (submitStudioJob jtype jname id ts nb).studioHistory =
        mkStudioItem id jtype jname ts (nb.sources.filter eligibleSource).length ::
          nb.studioHistory ∧
      (mkStudioItem id jtype jname ts (nb.sources.filter eligibleSource).length).status
          = .loading ∧
      (mkStudioItem id jtype jname ts (nb.sources.filter eligibleSource).length).sourceCount
          = (nb.sources.filter eligibleSource).length) := by
  constructor
  · intro jt jn id ts nb h
    simp [submitStudioJob, h]
  · intro jt jn id ts nb h
    refine ⟨?_, rfl, rfl⟩
    simp [submitStudioJob, Nat.pos_iff_ne_zero.mp h]

/-- Witness for C4: a sourceless notebook is rejected; `handleGenerateQuiz`
on a notebook with exactly two eligible sources appends a loading quiz
item with `sourceCount = 2`. -/
theorem c4_studio_gating_witness :
    submitStudioJob .quiz "Kiểm tra kiến thức" "h0" "10:00"
        ⟨"n0", "E", [], [], []⟩ = ⟨"n0", "E", [], [], []⟩ ∧
    (handleGenerateQuiz "h1" "10:01" sampleNotebook).studioHistory =
      mkStudioItem "h1" .quiz "Kiểm tra kiến thức" "10:01" 2 ::
        sampleNotebook.studioHistory := by
  refine ⟨c4_studio_gating.1 .quiz "Kiểm tra kiến thức" "h0" "10:00" _ (by decide), ?_⟩
  have h := (c4_studio_gating.2 .quiz "Kiểm tra kiến thức" "h1" "10:01"
    sampleNotebook (by decide)).1
  show (submitStudioJob .quiz "Kiểm tra kiến thức" "h1" "10:01" sampleNotebook).studioHistory = _
  rw [h]
  rfl

/-- The storage projection leaves every field of a studio-history item
unchanged except `data`, which it clears exactly for completed
audio/video items. -/
theorem sanitizeStudioItem_fields (it : StudioHistoryItem) :
    (sanitizeStudioItem it).id = it.id ∧
    (sanitizeStudioItem it).type = it.type ∧
    (sanitizeStudioItem it).status = it.status ∧
    (sanitizeStudioItem it).name = it.name ∧
    (sanitizeStudioItem it).timestamp = it.timestamp ∧
    (sanitizeStudioItem it).sourceCount = it.sourceCount ∧
    (sanitizeStudioItem it).errorMsg = it.errorMsg ∧
    (sanitizeStudioItem it).data =
      (if it.status = .completed ∧ (it.type = .audio ∨ it.type = .video)
        then none else it.data) := by
  unfold sanitizeStudioItem
  by_cases hb : it.status = .completed ∧ (it.type = .audio ∨ it.type = .video) <;>
    simp [hb]

/-- C5: the projection applied before every save nulls `content` exactly
for image/pdf/audio/video sources and clears `data` exactly for
completed audio/video studio items, leaving every other field of every
notebook unchanged; the save/load cycle is exactly this projection, so
all non-binary fields survive it verbatim. -/
theorem c5_sanitize_projection :
    (∀ nbs : List Notebook, persistRoundTrip nbs = nbs.map sanitizeNotebook) ∧
    (∀ nb : Notebook,
      (sanitizeNotebook nb).id = nb.id ∧
      (sanitizeNotebook nb).name = nb.name ∧
      (sanitizeNotebook nb).chatHistory = nb.chatHistory ∧
      (sanitizeNotebook nb).sources = nb.sources.map sanitizeSource ∧
      (sanitizeNotebook nb).studioHistory = nb.studioHistory.map sanitizeStudioItem) ∧
    (∀ s : Source,
      (sanitizeSource s).id = s.id ∧
      (sanitizeSource s).name = s.name ∧
      (sanitizeSource s).originalType = s.originalType ∧
      (sanitizeSource s).status = s.status ∧
      (sanitizeSource s).progress = s.progress ∧
      (sanitizeSource s).groundingText = s.groundingText ∧
      (sanitizeSource s).errorMsg = s.errorMsg ∧
      (sanitizeSource s).content =
        (if s.content.elim false isBinaryContent then none else s.content)) ∧
    (∀ it : StudioHistoryItem,
      (sanitizeStudioItem it).id = it.id ∧
      (sanitizeStudioItem it).type = it.type ∧
      (sanitizeStudioItem it).status = it.status ∧
      (sanitizeStudioItem it).name = it.name ∧
      (sanitizeStudioItem it).timestamp = it.timestamp ∧
      (sanitizeStudioItem it).sourceCount = it.sourceCount ∧
      (sanitizeStudioItem it).errorMsg = it.errorMsg ∧
      (sanitizeStudioItem it).data =
        (if it.status = .completed ∧ (it.type = .audio ∨ it.type = .video)
          then none else it.data)) :=
  ⟨fun _ => rfl,
   fun _ => ⟨rfl, rfl, rfl, rfl, rfl⟩,
   sanitizeSource_fields,
   sanitizeStudioItem_fields⟩

/-- C6: a citation marker `[k]` with `1 ≤ k ≤ number of ready sources`
resolves to the `k`-th element (1-indexed) of the ready-filtered source
list, in source-list order; `[0]` or any out-of-range `[k]` renders as
the literal marker text (the renderer is total, so no crash). -/
theorem c6_citation_resolution :
    (∀ (sources : List Source) (k : Nat),
      1 ≤ k → k ≤ (readySourcesOf sources).length →
      ∃ s, (readySourcesOf sources).get? (k - 1) = some s ∧
        renderMarker sources k = .citation s k) ∧
    (∀ (sources : List Source) (k : Nat),
      k = 0 ∨ (readySourcesOf sources).length < k →
      renderMarker sources k = .literal ("[" ++ toString k ++ "]")) := by
  constructor
  · intro sources k h1 h2
    have hlt : k - 1 < (readySourcesOf sources).length := by omega
    have hidx : ((k : Int) - 1).toNat = k - 1 := by omega
    have hc : 0 ≤ (k : Int) - 1 ∧
        (k : Int) - 1 < ((readySourcesOf sources).length : Int) := by
      constructor <;> omega
    refine ⟨(readySourcesOf sources).get ⟨k - 1, hlt⟩, List.get?_eq_get hlt, ?_⟩
    simp only [renderMarker, citationTarget]
    rw [if_pos hc, hidx, List.get?_eq_get hlt]
  · intro sources k h
    have hc : ¬(0 ≤ (k : Int) - 1 ∧
        (k : Int) - 1 < ((readySourcesOf sources).length : Int)) := by
      rcases h with h | h <;> (intro hc; omega)
    simp only [renderMarker, citationTarget]
    rw [if_neg hc]

/-- Witness for C6 at a concrete source list: `[2]` resolves to the second
ready source (the error source in between is skipped) and `[0]`, `[3]`
render literally. -/
theorem c6_citation_resolution_witness :
    (∃ s, (readySourcesOf sampleNotebook.sources).get? 1 = some s ∧
      renderMarker sampleNotebook.sources 2 = .citation s 2) ∧
    renderMarker sampleNotebook.sources 0 = .literal "[0]" ∧
    renderMarker sampleNotebook.sources 3 = .literal "[3]" :=
  ⟨c6_citation_resolution.1 sampleNotebook.sources 2 (by decide) (by decide),
   c6_citation_resolution.2 sampleNotebook.sources 0 (Or.inl rfl),
   c6_citation_resolution.2 sampleNotebook.sources 3 (Or.inr (by decide))⟩

/-- C7: for a spreadsheet/word-processing MIME type,
`extractTextAndContentFromFile` succeeds even when the XLSX structural
parse throws: the fixed placeholder string becomes `groundingText` and
the returned content is `text` of that same string. -/
theorem c7_xlsx_failure :
    ∀ (env : ExtractEnv) (mimeType base64 e : String),
      isOfficeMime mimeType = true →
      env.officeSheets = .error e →
      extractTextAndContentFromFile env mimeType base64 =
        .ok (.text xlsxPlaceholder, xlsxPlaceholder) := by
  intro env mt b64 e hm hs
  have hdisj :
      mt = "application/vnd.openxmlformats-officedocument.spreadsheetml.sheet" ∨
      mt = "application/vnd.openxmlformats-officedocument.wordprocessingml.document" := by
    simpa [isOfficeMime] using hm
  rcases hdisj with h | h <;> subst h <;>
    simp +decide [extractTextAndContentFromFile, hs, isOfficeMime]

/-- Witness for C7 at a concrete environment whose XLSX parse throws. -/
theorem c7_xlsx_failure_witness :
    extractTextAndContentFromFile
        ⟨.ok "t", .ok [], .error "XLSX read failed", fun b => b⟩
        "application/vnd.openxmlformats-officedocument.spreadsheetml.sheet" "QUJD"
      = .ok (.text xlsxPlaceholder, xlsxPlaceholder) :=
  c7_xlsx_failure _ _ "QUJD" "XLSX read failed" (by decide) rfl

theorem batchTraceFrom_length (rs : List ExtractResult) :
    ∀ k0 : Nat, (batchTraceFrom k0 rs).length = 2 * rs.length := by
  induction rs with
  | nil => intro k0; rfl
  | cons r rs ih =>
    intro k0
    simp only [batchTraceFrom, List.length_cons, ih]
    omega

theorem batchTraceFrom_get (rs : List ExtractResult) :
    ∀ (k0 k : Nat) (r : ExtractResult), rs.get? k = some r →
      (batchTraceFrom k0 rs).get? (2 * k) = some (.start (k0 + k)) ∧
      (batchTraceFrom k0 rs).get? (2 * k + 1) = some (.finish (k0 + k) r.isOk) := by
  induction rs with
  | nil => intro k0 k r h; simp [List.get?] at h
  | cons a rs ih =>
    intro k0 k r h
    match k with
    | 0 =>
      rw [List.get?_cons_zero] at h
      injection h with h
      subst h
      exact ⟨rfl, rfl⟩
    | j + 1 =>
      rw [List.get?_cons_succ] at h
      have ihj := ih (k0 + 1) j r h
      have e0 : k0 + 1 + j = k0 + (j + 1) := by ring
      rw [e0] at ihj
      have e1 : 2 * (j + 1) = 2 * j + 1 + 1 := by ring
      have e2 : 2 * (j + 1) + 1 = 2 * j + 1 + 1 + 1 := by ring
      constructor
      · rw [e1]
        simp only [batchTraceFrom, List.get?_cons_succ]
        exact ihj.1
      · rw [e2]
        simp only [batchTraceFrom, List.get?_cons_succ]
        exact ihj.2

theorem batchTraceFrom_start_pos (rs : List ExtractResult) :
    ∀ (k0 i k : Nat), (batchTraceFrom k0 rs).get? i = some (.start k) →
      ∃ m, i = 2 * m ∧ k = k0 + m := by
  induction rs with
  | nil => intro k0 i k h; simp [batchTraceFrom, List.get?] at h
  | cons a rs ih =>
    intro k0 i k h
    match i with
    | 0 =>
      rw [show batchTraceFrom k0 (a :: rs) =
        .start k0 :: .finish k0 a.isOk :: batchTraceFrom (k0 + 1) rs from rfl,
        List.get?_cons_zero] at h
      injection h with h
      injection h with h
      exact ⟨0, rfl, by omega⟩
    | 1 =>
      rw [show batchTraceFrom k0 (a :: rs) =
        .start k0 :: .finish k0 a.isOk :: batchTraceFrom (k0 + 1) rs from rfl,
        List.get?_cons_succ, List.get?_cons_zero] at h
      injection h with h
      cases h
    | j + 2 =>
      rw [show batchTraceFrom k0 (a :: rs) =
        .start k0 :: .finish k0 a.isOk :: batchTraceFrom (k0 + 1) rs from rfl,
        List.get?_cons_succ, List.get?_cons_succ] at h
      obtain ⟨m, hm, hk⟩ := ih (k0 + 1) j k h
      exact ⟨m + 1, by omega, by omega⟩

theorem batchTraceFrom_finish_pos (rs : List ExtractResult) :
    ∀ (k0 i k : Nat) (b : Bool),
      (batchTraceFrom k0 rs).get? i = some (.finish k b) →
      ∃ m, i = 2 * m + 1 ∧ k = k0 + m := by
  induction rs with
  | nil => intro k0 i k b h; simp [batchTraceFrom, List.get?] at h
  | cons a rs ih =>
    intro k0 i k b h
    match i with
    | 0 =>
      rw [show batchTraceFrom k0 (a :: rs) =
        .start k0 :: .finish k0 a.isOk :: batchTraceFrom (k0 + 1) rs from rfl,
        List.get?_cons_zero] at h
      injection h with h
      cases h
    | 1 =>
      rw [show batchTraceFrom k0 (a :: rs) =
        .start k0 :: .finish k0 a.isOk :: batchTraceFrom (k0 + 1) rs from rfl,
        List.get?_cons_succ, List.get?_cons_zero] at h
      injection h with h
      injection h with h1 h2
      exact ⟨0, rfl, by omega⟩
    | j + 2 =>
      rw [show batchTraceFrom k0 (a :: rs) =
        .start k0 :: .finish k0 a.isOk :: batchTraceFrom (k0 + 1) rs from rfl,
        List.get?_cons_succ, List.get?_cons_succ] at h
      obtain ⟨m, hm, hk⟩ := ih (k0 + 1) j k b h
      exact ⟨m + 1, by omega, by omega⟩

/-- C3: in the event trace of one ingestion batch, the `k`-th source's
extraction occupies exactly the trace slots `2k` (start) and `2k + 1`
(terminal state), and these are the only slots where that source starts
or finishes. Hence extraction of source `k + 1` (at slot `2k + 2`)
begins strictly after source `k` reached its terminal state (slot
`2k + 1`), terminal states occur in submission order, and no two
extractions of one batch overlap. -/
theorem c3_sequential_batch :
    ∀ results : List ExtractResult,
      (batchTrace results).length = 2 * results.length ∧
      (∀ (k : Nat) (r : ExtractResult), results.get? k = some r →
        (batchTrace results).get? (2 * k) = some (.start k) ∧
        (batchTrace results).get? (2 * k + 1) = some (.finish k r.isOk)) ∧
      (∀ i k : Nat, (batchTrace results).get? i = some (.start k) → i = 2 * k) ∧
      (∀ (i k : Nat) (b : Bool),
        (batchTrace results).get? i = some (.finish k b) → i = 2 * k + 1) := by
  intro results
  refine ⟨batchTraceFrom_length results 0, ?_, ?_, ?_⟩
  · intro k r h
    have := batchTraceFrom_get results 0 k r h
    simpa using this
  · intro i k h
    obtain ⟨m, hm, hk⟩ := batchTraceFrom_start_pos results 0 i k h
    omega
  · intro i k b h
    obtain ⟨m, hm, hk⟩ := batchTraceFrom_finish_pos results 0 i k b h
    omega

/-- Witness for C3 at a concrete two-source batch (one success, one
failure): the trace is start 0, finish 0, start 1, finish 1. -/
theorem c3_sequential_batch_witness :
    batchTrace [.ok (.text "a") "a", .err "boom"] =
      [.start 0, .finish 0 true, .start 1, .finish 1 false] ∧
    (batchTrace [.ok (.text "a") "a", .err "boom"]).get? (2 * 1) =
      some (.start 1) := by
  refine ⟨rfl, ?_⟩
  exact (c3_sequential_batch [.ok (.text "a") "a", .err "boom"]).2.1 1
    (.err "boom") rfl |>.1

/-- C8: when the primary (retried) Gemini call for a JSON generation
ultimately fails and DeepSeek is configured, `generateMindMap` issues
the fallback request with the same role-tagged messages in JSON mode,
strips Markdown code fences from the reply before parsing it, and
returns the parsed value; if the secondary also fails, the original
(primary) error message is propagated; fence wrapping is removed by the
stripping step. -/
theorem c8_provider_fallback :
    (∀ (J : Type) (env : MindMapEnv J) (prompt e ds : String) (j : J),
      env.primaryText = .error e →
      env.deepseekConfigured = true →
      env.deepseek (mindMapFallbackMessages prompt) true = .ok ds →
      env.parseJson (stripFencesMindMap ds) = .ok j →
      generateMindMap env prompt =
        (.ok j, some (mindMapFallbackMessages prompt, true))) ∧
    (∀ (J : Type) (env : MindMapEnv J) (prompt e derr : String),
      env.primaryText = .error e → e ≠ "" →
      env.deepseekConfigured = true →
      env.deepseek (mindMapFallbackMessages prompt) true = .error derr →
      generateMindMap env prompt =
        (.error e, some (mindMapFallbackMessages prompt, true))) ∧
    stripFencesMindMap "```json[1, 2]```" = "[1, 2]" := by
  refine ⟨?_, ?_, by decide⟩
  · intro J env prompt e ds j h1 h2 h3 h4
    simp [generateMindMap, h1, h2, h3, h4]
  · intro J env prompt e derr h1 he h2 h3
    simp [generateMindMap, h1, he, h2, h3]

/-- Witness for C8 at a concrete environment: fallback succeeds with a
fenced JSON reply in the first scenario; both providers fail in the
second. -/
theorem c8_provider_fallback_witness :
    generateMindMap
        (⟨.error "quota gone",
          fun s => if s = "[1, 2]" then .ok (7 : Nat) else .error "bad json",
          true, fun _ _ => .ok "```json[1, 2]```"⟩ : MindMapEnv Nat) "P" =
      (.ok 7, some (mindMapFallbackMessages "P", true)) ∧
    generateMindMap
        (⟨.error "quota gone",
          fun _ => .error "bad json",
          true, fun _ _ => .error "ds down"⟩ : MindMapEnv Nat) "P" =
      (.error "quota gone", some (mindMapFallbackMessages "P", true)) :=
  ⟨c8_provider_fallback.1 Nat _ "P" "quota gone" "```json[1, 2]```" 7
      rfl rfl rfl rfl,
   c8_provider_fallback.2.1 Nat _ "P" "quota gone" "ds down"
      rfl (by decide) rfl rfl⟩

theorem strJoin_foldl_length (sep : String) :
    ∀ (xs : List String) (acc : String),
      acc.length ≤ (xs.foldl (fun a x => a ++ sep ++ x) acc).length := by
  intro xs
  induction xs with
  | nil => intro acc; exact le_refl _
  | cons x xs ih =>
    intro acc
    calc acc.length ≤ (acc ++ sep ++ x).length := by
          rw [String.length_append, String.length_append]; omega
      _ ≤ _ := ih _

/-- With at least one eligible source the preamble is non-empty, so the
no-sources early return is not taken. -/
theorem sourcePreamble_ne_empty (sources : List Source) (s0 : Source)
    (rest : List Source) (h : sources.filter eligibleSource = s0 :: rest) :
    sourcePreamble sources ≠ "" := by
  unfold sourcePreamble
  rw [h]
  intro h0
  have hlen := congrArg String.length h0
  have hge := strJoin_foldl_length "\n\n" (sourceParts 1 rest)
    ("--- SOURCE " ++ toString (0 + 1) ++ ": " ++ s0.name ++ " ---\n" ++
      s0.groundingText.getD "")
  rw [show strJoin "\n\n" (sourceParts 0 (s0 :: rest)) =
    (sourceParts 1 rest).foldl (fun a x => a ++ "\n\n" ++ x)
      ("--- SOURCE " ++ toString (0 + 1) ++ ": " ++ s0.name ++ " ---\n" ++
        s0.groundingText.getD "") from rfl] at hlen
  rw [hlen] at hge
  simp only [String.length_append] at hge
  have h11 : ("--- SOURCE " : String).length = 11 := by decide
  rw [h11] at hge
  have h0len : ("" : String).length = 0 := rfl
  rw [h0len] at hge
  omega

/-- C9: `generateGroundedResponse` is total (it returns a reply string on
every path). With zero eligible sources it returns the fixed
no-valid-sources message without consulting any AI provider; when
eligible sources exist but the primary call fails and the fallback
provider also fails on every request (or is not configured), it returns
a human-readable error string (the API-key hint or the
`Xin lỗi, đã có lỗi xảy ra:` message) instead of throwing. -/
theorem c9_grounded_response_total :
    (∀ (env : GroundedEnv) (sources : List Source) (question : String)
        (chatHistory : List ChatMessage),
      sources.filter eligibleSource = [] →
      generateGroundedResponse env sources question chatHistory =
        (noValidSourcesMessage, false)) ∧
    (∀ (env : GroundedEnv) (sources : List Source) (question : String)
        (chatHistory : List ChatMessage) (e : String),
      env.primary = .error e →
      (∀ msgs : List DSMessage, ∃ derr, env.deepseek msgs = .error derr) →
      sources.filter eligibleSource ≠ [] →
      ((generateGroundedResponse env sources question chatHistory).1 =
          "Lỗi: Không tìm thấy API Key. Vui lòng kiểm tra cài đặt Environment Variable trên Vercel." ∨
        ∃ tail, (generateGroundedResponse env sources question chatHistory).1 =
          "Xin lỗi, đã có lỗi xảy ra: " ++ tail)) := by
  constructor
  · intro env sources question ch h
    simp [generateGroundedResponse, sourcePreamble, h, sourceParts, strJoin]
  · intro env sources question ch e hp hfail hne
    obtain ⟨s0, rest, hfe⟩ : ∃ s0 rest, sources.filter eligibleSource = s0 :: rest := by
      cases hfe : sources.filter eligibleSource with
      | nil => exact absurd hfe hne
      | cons a l => exact ⟨a, l, rfl⟩
    have hpre := sourcePreamble_ne_empty sources s0 rest hfe
    have hds : (if env.deepseekConfigured then
        match env.deepseek [⟨"system", groundedSystemPrompt sources.length⟩,
          ⟨"user", groundedFullPrompt (recentContext ch) (sourcePreamble sources) question⟩] with
        | .ok t => some t
        | .error _ => none
      else none) = (none : Option String) := by
      by_cases hc : env.deepseekConfigured
      · obtain ⟨derr, hd⟩ := hfail [⟨"system", groundedSystemPrompt sources.length⟩,
          ⟨"user", groundedFullPrompt (recentContext ch) (sourcePreamble sources) question⟩]
        simp [hc, hd]
      · simp [hc]
    by_cases hik : strIncludes e "API key"
    · left
      simp [generateGroundedResponse, hpre, hp, hds, hik]
    · right
      refine ⟨if e = "" then "Lỗi không xác định" else e, ?_⟩
      simp [generateGroundedResponse, hpre, hp, hds, hik]

/-- Witness for C9: a notebook with no eligible sources gets the fixed
message with no AI call; with one eligible source and both providers
failing, the reply is the generic error string. -/
theorem c9_grounded_response_total_witness :
    generateGroundedResponse ⟨.ok "hi", true, fun _ => .ok "ds"⟩
        [erroredSource] "q" [] = (noValidSourcesMessage, false) ∧
    ((generateGroundedResponse
        ⟨.error "boom", true, fun _ => .error "ds down"⟩
        [readyTextSource] "q" []).1 =
          "Lỗi: Không tìm thấy API Key. Vui lòng kiểm tra cài đặt Environment Variable trên Vercel." ∨
      ∃ tail, (generateGroundedResponse
        ⟨.error "boom", true, fun _ => .error "ds down"⟩
        [readyTextSource] "q" []).1 =
          "Xin lỗi, đã có lỗi xảy ra: " ++ tail) :=
  ⟨c9_grounded_response_total.1 _ [erroredSource] "q" [] (by decide),
   c9_grounded_response_total.2 _ [readyTextSource] "q" [] "boom"
      rfl (fun _ => ⟨"ds down", rfl⟩) (by decide)⟩

end NotebookApp
